import Mathlib

/-!
Verification development for the OneVice intelligence layer
(`src/onevice`): a shallow embedding in Lean 4 of the query classifier
(`agents/configs.ts`), the agent factory (`agents/factory.ts`), the
session window (`agents/session-manager.ts`), the provider router
(`llm/router.ts`) and the reasoning orchestrator
(`agents/orchestrator.ts`), together with theorems about the embedded
definitions.

External collaborators (the two model-provider HTTP endpoints, the
Supabase agent-definition store, the session store, and the concrete
tool implementations, which all perform network I/O) are modelled as
explicit parameters: the model provider as an oracle function from the
current message list to a completion response, the stores as
`Except`-valued lookup functions, and each tool's `execute` as an
`Except`-valued function.  Everything under `src/onevice` that the
claims depend on is translated directly from the TypeScript source.
-/

namespace OneVice

/-- Message role, from `ChatMessage` in `llm/router.ts`. -/
inductive Role where
  | system
  | user
  | assistant
  | tool
deriving DecidableEq, Repr

/-- `ToolCallMessage` from `llm/router.ts` (the constant `type:
"function"` tag and the `function` wrapper are flattened). -/
structure ToolCallMsg where
  id : String
  name : String
  arguments : String
deriving DecidableEq, Repr

/-- `ChatMessage` from `llm/router.ts`.  The `timestamp` field models
the extra property spread onto stored messages by
`session-manager.ts`. -/
structure ChatMessage where
  role : Role
  content : String
  tool_call_id : Option String := none
  tool_calls : Option (List ToolCallMsg) := none
  timestamp : Option String := none
deriving DecidableEq, Repr

/-- Stop reason of `ChatCompletionResponse` in `llm/router.ts`. -/
inductive StopReason where
  | stop
  | tool_calls
  | length
  | unknown
deriving DecidableEq, Repr

/-- A resolved tool call of `ChatCompletionResponse.toolCalls` in
`llm/router.ts`.  The parsed argument object is kept as an opaque
string (its JSON text); no claim inspects argument contents. -/
structure ToolCall where
  id : String
  name : String
  arguments : String
deriving DecidableEq, Repr

/-- `ChatCompletionResponse` from `llm/router.ts` (token usage
omitted; no claim mentions it). -/
structure ChatCompletionResponse where
  text : String
  stopReason : StopReason
  toolCalls : List ToolCall
  model : String
deriving DecidableEq, Repr

/-- A content block of an `AgentToolResult` (from
`@mariozechner/pi-agent-core`): the orchestrator keeps only blocks of
type `"text"`. -/
inductive ContentBlock where
  | text (t : String)
  | other
deriving DecidableEq, Repr

/-- An `AgentTool`: name, description, and an `execute` function which
either returns result content blocks or throws (modelled by
`Except.error` carrying the stringified exception). -/
structure Tool where
  name : String
  description : String
  execute : String → String → Except String (List ContentBlock)

/-- The concrete tool objects imported by `agents/configs.ts` from
`tools/graph-tools.ts`, `tools/bid-tools.ts` and `tools/folk-crm.ts`;
their bodies perform network I/O, so the three built-in tool lists are
parameters of the embedding. -/
structure BuiltinTools where
  sales : List Tool
  talent : List Tool
  bidding : List Tool

/-- `AgentConfig` from `agents/configs.ts`. -/
structure AgentConfig where
  type : String
  systemPrompt : String
  tools : List Tool
  defaultModel : Option String := none

/-- System prompt of `SALES_CONFIG` in `agents/configs.ts`. -/
def SALES_SYSTEM_PROMPT : String :=
"You are the OneVice Sales Intelligence Agent, an AI assistant for the entertainment industry.

Your capabilities:
- Look up people, organizations, and their relationships in the knowledge graph
- Search Folk CRM for live contact data
- Find collaborators and network connections
- Search across the entire knowledge base

When answering:
- Be concise and actionable
- Include specific names, roles, and relationships
- Suggest next steps when appropriate
- If data is not found, suggest alternative search approaches"

/-- System prompt of `TALENT_CONFIG` in `agents/configs.ts`. -/
def TALENT_SYSTEM_PROMPT : String :=
"You are the OneVice Talent Acquisition Agent, an AI assistant for finding and evaluating entertainment industry talent.

Your capabilities:
- Search for people by skills, roles, and experience
- Find collaborators and past working relationships
- Look up project details and crew compositions
- Find similar projects for pattern matching
- Check crew collaboration history

When answering:
- Focus on relevant experience and skills
- Highlight collaboration history between crew members
- Suggest talent based on project requirements
- Note any potential scheduling or availability concerns"

/-- System prompt of `BIDDING_CONFIG` in `agents/configs.ts`. -/
def BIDDING_SYSTEM_PROMPT : String :=
"You are the OneVice Bidding Intelligence Agent, an AI assistant for analyzing bids, budgets, and production costs.

Your capabilities:
- Validate talent rates against profiles
- Get financial breakdowns for crew positions
- Analyze director-brand fit for campaigns
- Find DPs by visual aesthetic requirements
- Check crew collaboration history
- Identify executive producers for projects
- Analyze company hub status in the network

When answering:
- Provide specific numbers and rates
- Flag mismatches between bid rates and profile rates
- Suggest cost optimizations when appropriate
- Reference relevant past projects for comparison"

/-- `SALES_CONFIG` from `agents/configs.ts`, over the imported tool
objects. -/
def salesConfig (bt : BuiltinTools) : AgentConfig :=
  { type := "sales", systemPrompt := SALES_SYSTEM_PROMPT, tools := bt.sales }

/-- `TALENT_CONFIG` from `agents/configs.ts`. -/
def talentConfig (bt : BuiltinTools) : AgentConfig :=
  { type := "talent", systemPrompt := TALENT_SYSTEM_PROMPT, tools := bt.talent }

/-- `BIDDING_CONFIG` from `agents/configs.ts`. -/
def biddingConfig (bt : BuiltinTools) : AgentConfig :=
  { type := "bidding", systemPrompt := BIDDING_SYSTEM_PROMPT, tools := bt.bidding }

/-- `getAgentConfig` from `agents/configs.ts`: the `CONFIGS[type] ??
SALES_CONFIG` lookup (defaults to sales for "custom" or unknown). -/
def getAgentConfig (bt : BuiltinTools) (type : String) : AgentConfig :=
  if type == "sales" then salesConfig bt
  else if type == "talent" then talentConfig bt
  else if type == "bidding" then biddingConfig bt
  else salesConfig bt

/-- `SALES_KEYWORDS` from `agents/configs.ts`. -/
def SALES_KEYWORDS : List String :=
  ["lead", "client", "company", "organization", "deal", "pipeline",
   "contact", "revenue", "prospect", "sales", "crm", "folk"]

/-- `TALENT_KEYWORDS` from `agents/configs.ts`. -/
def TALENT_KEYWORDS : List String :=
  ["crew", "talent", "director", "producer", "dp", "casting",
   "hire", "skill", "cinematographer", "editor", "writer"]

/-- `BIDDING_KEYWORDS` from `agents/configs.ts`. -/
def BIDDING_KEYWORDS : List String :=
  ["bid", "cost", "rate", "budget", "estimate", "vendor",
   "financial", "breakdown", "price", "fee", "invoice", "line item"]

/-- JS `message.toLowerCase()`, as a character-wise map (the inputs
of interest are ASCII). -/
def lowerString (s : String) : String :=
  String.mk (s.data.map Char.toLower)

/-- Does `needle` occur at the head of `hay`?  (Auxiliary for the JS
`String.prototype.includes` used by `classifyQuery`.) -/
def charsHasPfx : List Char → List Char → Bool
  | [], _ => true
  | _ :: _, [] => false
  | n :: ns, h :: hs => n == h && charsHasPfx ns hs

/-- Does `needle` occur as a contiguous substring of `hay`? -/
def charsIncludes (needle : List Char) : List Char → Bool
  | [] => charsHasPfx needle []
  | c :: hs => charsHasPfx needle (c :: hs) || charsIncludes needle hs

/-- JS `hay.includes(needle)`: substring containment. -/
def strIncludes (hay needle : String) : Bool :=
  charsIncludes needle.data hay.data

/-- One keyword-scoring loop of `classifyQuery` in
`agents/configs.ts`: `for (const kw of kws) if (lower.includes(kw))
score++`. -/
def scoreKeywords (lower : String) (kws : List String) : Nat :=
  kws.foldl (fun acc kw => if strIncludes lower kw then acc + 1 else acc) 0

/-- `classifyQuery` from `agents/configs.ts`. -/
def classifyQuery (message : String) : String :=
  let lower := lowerString message
  let salesScore := scoreKeywords lower SALES_KEYWORDS
  let talentScore := scoreKeywords lower TALENT_KEYWORDS
  let biddingScore := scoreKeywords lower BIDDING_KEYWORDS
  if biddingScore > salesScore && biddingScore > talentScore then "bidding"
  else if talentScore > salesScore then "talent"
  else if salesScore > 0 then "sales"
  else "sales"

/-- Spec-side scoring (§4.1 of the spec): "Scores a category by
counting how many of its keywords occur as substrings of the
lower-cased input (each keyword contributes at most 1)". -/
def specScore (lower : String) (kws : List String) : Nat :=
  (kws.filter (fun kw => strIncludes lower kw)).length

/-- Spec-side classifier (§4.1 of the spec), to be compared with
`classifyQuery`: scores by `specScore`, then applies the tie-break
policy "(a) if the financial/bidding score strictly exceeds both
others, pick it; (b) else if the talent score strictly exceeds the
sales score, pick talent; (c) else if the sales score is positive,
pick sales; (d) otherwise default to sales". -/
def specClassify (message : String) : String :=
  let lower := lowerString message
  let salesScore := specScore lower SALES_KEYWORDS
  let talentScore := specScore lower TALENT_KEYWORDS
  let biddingScore := specScore lower BIDDING_KEYWORDS
  if biddingScore > salesScore && biddingScore > talentScore then "bidding"
  else if talentScore > salesScore then "talent"
  else if salesScore > 0 then "sales"
  else "sales"

/-- JS `s || d` for strings: `d` when `s` is the empty string. -/
def jsOr (s d : String) : String :=
  if s == "" then d else s

/-- JS `x?.f || d` / `x || d` for an optional string: `d` when the
value is absent or empty. -/
def jsOrOpt (x : Option String) (d : String) : String :=
  match x with
  | some s => jsOr s d
  | none => d

/-- `UserAgentConfig` from `types/index.ts` (fields not consulted by
the orchestrator/factory — `user_id`, `agent_name`, `temperature`,
`created_at`, `updated_at` — are omitted). -/
structure UserAgentConfig where
  id : String
  agent_type : String
  system_prompt : Option String := none
  tools_enabled : List String
  model_preference : String
  is_active : Bool
deriving Repr

/-- `getValidToolNames` from `agents/factory.ts`, over a registry
modelled as the list of registered tools (name-keyed, first match
wins, as for the `Map`). -/
def getValidToolNames (registry : List Tool) : List String :=
  registry.map (fun t => t.name)

/-- `resolveTools` from `agents/factory.ts`: resolve names in order,
silently dropping names absent from the registry. -/
def resolveTools (registry : List Tool) (toolNames : List String) : List Tool :=
  toolNames.filterMap (fun n => registry.find? (fun t => t.name == n))

/-- Does `s` start with `pre`?  (Character-list version of
`String.startsWith`.) -/
def strStartsWith (s pre : String) : Bool :=
  charsHasPfx pre.data s.data

/-- Drop the first `n` characters of `s`. -/
def strDrop (s : String) (n : Nat) : String :=
  String.mk (s.data.drop n)

/-- The one regex replacement in `stripModelPrefix`
(`agents/factory.ts`): `modelPref.replace(/^(together|anthropic)\//,
"")` removes a single leading `together/` or `anthropic/`. -/
def stripProviderOnce (modelPref : String) : String :=
  if strStartsWith modelPref "together/" then strDrop modelPref 9
  else if strStartsWith modelPref "anthropic/" then strDrop modelPref 10
  else modelPref

/-- `stripModelPrefix` from `agents/factory.ts`: strip one provider
namespace, and map an empty remainder to `undefined`
(`stripped || undefined`). -/
def stripModelPfx (modelPref : String) : Option String :=
  let stripped := stripProviderOnce modelPref
  if stripped == "" then none else some stripped

/-- Does the string begin with a provider-namespace prefix
(`together/` or `anthropic/`)?  Spec-side notion used by claim C9. -/
def hasProviderNamespace (s : String) : Bool :=
  strStartsWith s "together/" || strStartsWith s "anthropic/"

/-- `DEFAULT_CUSTOM_PROMPT` from `agents/factory.ts`. -/
def DEFAULT_CUSTOM_PROMPT : String :=
"You are a custom OneVice AI assistant for the entertainment industry.
Use the tools available to you to answer questions accurately and concisely.
If data is not found, suggest alternative approaches."

/-- `buildAgentConfigFromUser` from `agents/factory.ts`. -/
def buildAgentConfigFromUser (registry : List Tool) (bt : BuiltinTools)
    (userConfig : UserAgentConfig) : AgentConfig :=
  if userConfig.agent_type == "custom" then
    let tools := if userConfig.tools_enabled.length > 0
      then resolveTools registry userConfig.tools_enabled
      else resolveTools registry (getValidToolNames registry)
    { type := "custom",
      systemPrompt := jsOrOpt userConfig.system_prompt DEFAULT_CUSTOM_PROMPT,
      tools := tools,
      defaultModel := stripModelPfx userConfig.model_preference }
  else
    let baseConfig := getAgentConfig bt userConfig.agent_type
    let systemPrompt := jsOrOpt userConfig.system_prompt baseConfig.systemPrompt
    let tools := if userConfig.tools_enabled.length > 0
      then resolveTools registry userConfig.tools_enabled
      else baseConfig.tools
    { type := userConfig.agent_type,
      systemPrompt := systemPrompt,
      tools := tools,
      defaultModel := stripModelPfx userConfig.model_preference }

/-- Backend selected by the provider router (`llm/router.ts`). -/
inductive Provider where
  | together
  | anthropic
deriving DecidableEq, Repr

/-- `ToolDefinition` from `llm/router.ts` (the parameter schema is
opaque to every claim and omitted). -/
structure ToolDefinition where
  name : String
  description : String
deriving Repr

/-- `toolToFunctionDef` from `llm/router.ts`. -/
def toolToFunctionDef (tool : Tool) : ToolDefinition :=
  { name := tool.name, description := tool.description }

/-- `CompletionOptions` from `llm/router.ts` (temperature, a float, is
consumed by no claim and omitted). -/
structure CompletionOptions where
  messages : List ChatMessage := []
  tools : Option (List ToolDefinition) := none
  systemPrompt : Option String := none
  model : Option String := none
  dataSensitivity : Option Nat := none

/-- `getProvider` from `llm/router.ts`: `sensitivity >= 5 ?
"anthropic" : "together"`. -/
def getProvider (sensitivity : Nat) : Provider :=
  if sensitivity ≥ 5 then Provider.anthropic else Provider.together

/-- The provider selected by `chatCompletion` in `llm/router.ts`:
`getProvider(opts.dataSensitivity ?? 1)`; the chosen provider
determines whether `callAnthropic` or `callTogether` performs the
request. -/
def chatCompletionProvider (opts : CompletionOptions) : Provider :=
  getProvider (opts.dataSensitivity.getD 1)

/-- `UserContext` from `types/index.ts` (the sensitivity level is a
`Nat` in 1..6). -/
structure UserContext where
  user_id : String
  role : String
  data_sensitivity : Nat
  department : Option String := none
deriving DecidableEq, Repr

/-- `QueryRequest` from `types/index.ts`. -/
structure QueryRequest where
  message : String
  user_context : UserContext
  conversation_id : String
  agent_id : Option String := none
  agent_type : Option String := none
deriving DecidableEq, Repr

/-- The `agent_info` object of `QueryResponse` in `types/index.ts`;
`agents_used = none` models the field being `undefined`/omitted. -/
structure AgentInfo where
  type : String
  primary_agent : String
  routing_strategy : String
  agents_used : Option (List String) := none
deriving DecidableEq, Repr

/-- `QueryResponse` from `types/index.ts`. -/
structure QueryResponse where
  content : String
  agent_info : AgentInfo
  conversation_id : String
  timestamp : String
deriving DecidableEq, Repr

/-- External collaborators consumed by `runQuery`
(`agents/orchestrator.ts`): the tool registry of `agents/factory.ts`,
the tool objects imported by `agents/configs.ts`, `getUserAgent` from
`db/supabase.ts` (may throw, may return null), and
`loadSessionMessages` from `agents/session-manager.ts` as seen by the
orchestrator (returns a session id and the stored messages, or
throws). -/
structure OrchestratorEnv where
  registry : List Tool
  builtins : BuiltinTools
  getUserAgent : String → Except Unit (Option UserAgentConfig)
  loadSession : String → String → String → Except Unit (String × List ChatMessage)

/-- Outcome of step 1 of `runQuery` (`agents/orchestrator.ts`, lines
31–80): resolved config, agent type, routing strategy, primary-agent
label, attached session id and loaded history. -/
structure Resolution where
  config : AgentConfig
  agentType : String
  routingStrategy : String
  primaryAgent : String
  sessionId : Option String
  historyMessages : List ChatMessage

/-- The classification fallback of `runQuery`: `agentType =
request.agent_type ?? classifyQuery(request.message)`, strategy
`"fallback_classified"`. -/
def fallbackResolution (env : OrchestratorEnv) (req : QueryRequest) : Resolution :=
  let agentType := req.agent_type.getD (classifyQuery req.message)
  { config := getAgentConfig env.builtins agentType,
    agentType := agentType,
    routingStrategy := "fallback_classified",
    primaryAgent := agentType ++ "_intelligence",
    sessionId := none,
    historyMessages := [] }

/-- Step 1 of `runQuery` (`agents/orchestrator.ts`): agent-config
resolution.  The outer `try`/`catch` around the Supabase lookup and
the inner `try`/`catch` around the session load are modelled by the
`Except` results of the corresponding `OrchestratorEnv` fields. -/
def resolveAgent (env : OrchestratorEnv) (req : QueryRequest) : Resolution :=
  match req.agent_id with
  | some agentId =>
    match env.getUserAgent agentId with
    | .error _ => fallbackResolution env req
    | .ok none => fallbackResolution env req
    | .ok (some userAgent) =>
      if userAgent.is_active then
        let config := buildAgentConfigFromUser env.registry env.builtins userAgent
        match env.loadSession req.user_context.user_id userAgent.id req.conversation_id with
        | .ok session =>
          { config := config, agentType := userAgent.agent_type,
            routingStrategy := "user_agent",
            primaryAgent := "user_agent:" ++ userAgent.id,
            sessionId := some session.1, historyMessages := session.2 }
        | .error _ =>
          { config := config, agentType := userAgent.agent_type,
            routingStrategy := "user_agent",
            primaryAgent := "user_agent:" ++ userAgent.id,
            sessionId := none, historyMessages := [] }
      else fallbackResolution env req
  | none =>
    let agentType := req.agent_type.getD (classifyQuery req.message)
    { config := getAgentConfig env.builtins agentType,
      agentType := agentType,
      routingStrategy := if req.agent_type.isSome then "direct" else "auto_classified",
      primaryAgent := agentType ++ "_intelligence",
      sessionId := none,
      historyMessages := [] }

/-- One character of the JSON string escaping performed by
`JSON.stringify` on the error payloads built in the orchestrator's
tool loop. -/
def jsEscChar (c : Char) : String :=
  if c = '"' then "\\\""
  else if c = '\\' then "\\\\"
  else if c = '\n' then "\\n"
  else String.singleton c

/-- JSON string escaping for the error payloads. -/
def jsEscapeString (s : String) : String :=
  String.join (s.data.map jsEscChar)

/-- `JSON.stringify({ error: msg })`: the structured error payload
text produced for unknown tools and failed executions in
`agents/orchestrator.ts` (lines 158 and 161). -/
def jsonErrorString (msg : String) : String :=
  "\x7b\"error\":\"" ++ jsEscapeString msg ++ "\"\x7d"

/-- Text extraction from an `AgentToolResult`
(`agents/orchestrator.ts`, lines 152–155): keep the `"text"` blocks
and join with newlines. -/
def extractTextContent (blocks : List ContentBlock) : String :=
  String.intercalate "\n"
    (blocks.filterMap (fun b => match b with
      | ContentBlock.text t => some t
      | ContentBlock.other => none))

/-- Execution of one tool call (`agents/orchestrator.ts`, lines
144–162): the result text, plus whether the call counts as a
successful invocation (tool found and `execute` did not throw). -/
def execToolCall (tools : List Tool) (toolCall : ToolCall) : String × Bool :=
  match tools.find? (fun t => t.name == toolCall.name) with
  | some tool =>
    match tool.execute toolCall.id toolCall.arguments with
    | .ok result => (extractTextContent result, true)
    | .error e => (jsonErrorString ("Tool execution failed: " ++ e), false)
  | none => (jsonErrorString ("Unknown tool: " ++ toolCall.name), false)

/-- Spec-side success criterion for claim C10: the call resolved to a
configured tool and its execution did not throw. -/
def execSuccess (tools : List Tool) (toolCall : ToolCall) : Bool :=
  match tools.find? (fun t => t.name == toolCall.name) with
  | some tool =>
    match tool.execute toolCall.id toolCall.arguments with
    | .ok _ => true
    | .error _ => false
  | none => false

/-- The tool-role message appended for one tool call
(`agents/orchestrator.ts`, lines 164–168). -/
def mkToolResultMsg (toolCall : ToolCall) (resultText : String) : ChatMessage :=
  { role := Role.tool, content := resultText, tool_call_id := some toolCall.id }

/-- The `for (const toolCall of response.toolCalls)` loop
(`agents/orchestrator.ts`, lines 144–169): returns the tool-role
messages pushed onto `messages` and the names pushed onto
`toolsUsed`, both in call order. -/
def execBatch (tools : List Tool) : List ToolCall → List ChatMessage × List String
  | [] => ([], [])
  | toolCall :: rest =>
    let r := execToolCall tools toolCall
    let restResult := execBatch tools rest
    (mkToolResultMsg toolCall r.1 :: restResult.1,
     (if r.2 then [toolCall.name] else []) ++ restResult.2)

/-- The assistant message carrying the requested tool calls
(`agents/orchestrator.ts`, lines 132–140). -/
def mkAssistantMsg (response : ChatCompletionResponse) : ChatMessage :=
  { role := Role.assistant,
    content := jsOr response.text "",
    tool_calls := some (response.toolCalls.map (fun tc =>
      { id := tc.id, name := tc.name, arguments := tc.arguments })) }

/-- Result of the ReAct loop of `runQuery`: whether it terminated with
a normal-stop/no-tool-calls response (`finished = true`) or exhausted
the iteration bound, the final response text in the former case, the
accumulated message list and invoked-tool names, and the number of
`chatCompletion` invocations made. -/
structure LoopResult where
  finished : Bool
  finalText : String
  messages : List ChatMessage
  toolsUsed : List String
  calls : Nat

/-- `MAX_ITERATIONS` from `agents/orchestrator.ts`. -/
def MAX_ITERATIONS : Nat := 5

/-- The ReAct loop of `runQuery` (`agents/orchestrator.ts`, lines
95–170).  `llm` is the provider oracle standing for `chatCompletion`
(the system prompt, tool schemas, model and sensitivity passed
alongside the messages are constant across iterations and absorbed
into the oracle); the fuel argument plays `MAX_ITERATIONS - i`. -/
def reactLoop (llm : List ChatMessage → ChatCompletionResponse) (tools : List Tool) :
    Nat → List ChatMessage → List String → LoopResult
  | 0, messages, toolsUsed =>
    { finished := false, finalText := "", messages := messages,
      toolsUsed := toolsUsed, calls := 0 }
  | fuel + 1, messages, toolsUsed =>
    let response := llm messages
    if response.stopReason == StopReason.stop || response.toolCalls.isEmpty then
      { finished := true, finalText := response.text, messages := messages,
        toolsUsed := toolsUsed, calls := 1 }
    else
      let batch := execBatch tools response.toolCalls
      let r := reactLoop llm tools fuel
        ((messages ++ [mkAssistantMsg response]) ++ batch.1)
        (toolsUsed ++ batch.2)
      { r with calls := r.calls + 1 }

/-- The loop of `runQuery` on a given request: initial messages are
the loaded history followed by the new user message
(`agents/orchestrator.ts`, lines 83–86), with `MAX_ITERATIONS` fuel
and an empty `toolsUsed`. -/
def runLoopOf (env : OrchestratorEnv) (llm : List ChatMessage → ChatCompletionResponse)
    (req : QueryRequest) : LoopResult :=
  let r := resolveAgent env req
  reactLoop llm r.config.tools MAX_ITERATIONS
    (r.historyMessages ++ [{ role := Role.user, content := req.message }]) []

/-- `messages.filter((m) => m.role === "assistant").pop()`
(`agents/orchestrator.ts`, line 182). -/
def lastAssistantMsg (messages : List ChatMessage) : Option ChatMessage :=
  (messages.filter (fun m => m.role == Role.assistant)).getLast?

/-- The fixed placeholder of the exhausted path
(`agents/orchestrator.ts`, line 186). -/
def maxIterationsMessage : String :=
  "[Max iterations reached — partial results may be available from tool calls]"

/-- The fallback content of the normal-stop path
(`agents/orchestrator.ts`, line 119). -/
def noResponseMessage : String := "[No response generated]"

/-- `runQuery` from `agents/orchestrator.ts`, as the `QueryResponse`
it returns.  `now` stands for `new Date().toISOString()`.  The session
saves (fire-and-forget, failures swallowed) do not influence the
response and are modelled separately by `saveSessionMessages`. -/
def runQuery (env : OrchestratorEnv) (llm : List ChatMessage → ChatCompletionResponse)
    (now : String) (req : QueryRequest) : QueryResponse :=
  let r := resolveAgent env req
  let lr := runLoopOf env llm req
  if lr.finished then
    { content := jsOr lr.finalText noResponseMessage,
      agent_info :=
        { type := r.agentType, primary_agent := r.primaryAgent,
          routing_strategy := r.routingStrategy,
          agents_used := if lr.toolsUsed.length > 0 then some lr.toolsUsed else none },
      conversation_id := req.conversation_id,
      timestamp := now }
  else
    { content := jsOrOpt ((lastAssistantMsg lr.messages).map (fun m => m.content))
        maxIterationsMessage,
      agent_info :=
        { type := r.agentType, primary_agent := r.primaryAgent,
          routing_strategy := r.routingStrategy,
          agents_used := some lr.toolsUsed },
      conversation_id := req.conversation_id,
      timestamp := now }

/-- `MAX_HISTORY_MESSAGES` from `agents/session-manager.ts`. -/
def MAX_HISTORY_MESSAGES : Nat := 20

/-- The timestamping spread of `saveSessionMessages`
(`agents/session-manager.ts`, lines 42–45): `{ ...msg, timestamp:
msg.timestamp ?? now }`. -/
def stampMsg (now : String) (msg : ChatMessage) : ChatMessage :=
  { msg with timestamp := some (msg.timestamp.getD now) }

/-- `saveSessionMessages` from `agents/session-manager.ts`, as the
`messages` array it writes into the session state via
`updateSessionState`: concatenate, window with `slice(-20)` when over
the cap, stamp. -/
def saveSessionMessages (now : String) (existingMessages newMessages : List ChatMessage) :
    List ChatMessage :=
  let allMessages := existingMessages ++ newMessages
  let windowed := if allMessages.length > MAX_HISTORY_MESSAGES
    then allMessages.drop (allMessages.length - MAX_HISTORY_MESSAGES)
    else allMessages
  windowed.map (stampMsg now)

/-! ## Helper lemmas -/

/-- A conditional-increment fold counts exactly the elements kept by
the corresponding filter. -/
theorem foldl_count_filter (p : String → Bool) (kws : List String) :
    ∀ acc : Nat,
      kws.foldl (fun a kw => if p kw then a + 1 else a) acc = acc + (kws.filter p).length := by
  induction kws with
  | nil => intro acc; simp
  | cons k ks ih =>
    intro acc
    cases hp : p k with
    | true => simp [List.foldl_cons, List.filter_cons, hp, ih]; omega
    | false => simp [List.foldl_cons, List.filter_cons, hp, ih]

/-- The keyword-scoring loop of `classifyQuery` computes the
filter-count of the spec. -/
theorem scoreKeywords_eq_specScore (lower : String) (kws : List String) :
    scoreKeywords lower kws = specScore lower kws := by
  simpa [scoreKeywords, specScore] using
    foldl_count_filter (fun kw => strIncludes lower kw) kws 0

/-- The ReAct loop performs at most `fuel` model calls. -/
theorem reactLoop_calls_le (llm : List ChatMessage → ChatCompletionResponse)
    (tools : List Tool) :
    ∀ (fuel : Nat) (messages : List ChatMessage) (toolsUsed : List String),
      (reactLoop llm tools fuel messages toolsUsed).calls ≤ fuel := by
  intro fuel
  induction fuel with
  | zero => intro m t; simp [reactLoop]
  | succ n ih =>
    intro m t
    by_cases h : ((llm m).stopReason == StopReason.stop || (llm m).toolCalls.isEmpty) = true
    · simp [reactLoop, h]
    · simp only [reactLoop, Bool.not_eq_true] at h ⊢
      rw [h]
      simpa using Nat.succ_le_succ (ih _ _)

/-! ## Claim theorems -/

/-- C1 — Provider selection is a pure function of the data-sensitivity
level alone: under `chatCompletion`, sensitivity levels 1–4 select the
Together backend, levels 5–6 select the Anthropic backend, supplying a
model override leaves the selected backend unchanged, and any two
option records agreeing on sensitivity select the same backend. -/
theorem provider_selection_by_sensitivity :
    (∀ (opts : CompletionOptions) (s : Nat), opts.dataSensitivity = some s →
      1 ≤ s → s ≤ 4 → chatCompletionProvider opts = Provider.together)
    ∧ (∀ (opts : CompletionOptions) (s : Nat), opts.dataSensitivity = some s →
      5 ≤ s → s ≤ 6 → chatCompletionProvider opts = Provider.anthropic)
    ∧ (∀ (opts : CompletionOptions) (m : Option String),
      chatCompletionProvider { opts with model := m } = chatCompletionProvider opts)
    ∧ (∀ o1 o2 : CompletionOptions, o1.dataSensitivity = o2.dataSensitivity →
      chatCompletionProvider o1 = chatCompletionProvider o2) := by
  refine ⟨?_, ?_, ?_, ?_⟩
  · intro opts s hs h1 h4
    simp only [chatCompletionProvider, hs, Option.getD_some, getProvider]
    rw [if_neg (by omega)]
  · intro opts s hs h5 h6
    simp only [chatCompletionProvider, hs, Option.getD_some, getProvider]
    rw [if_pos (by omega)]
  · intro opts m
    rfl
  · intro o1 o2 h
    simp [chatCompletionProvider, h]

/-- Options with sensitivity 4 (boundary below). -/
def cOpts4 : CompletionOptions := { dataSensitivity := some 4 }

/-- Options with sensitivity 5 (boundary above). -/
def cOpts5 : CompletionOptions := { dataSensitivity := some 5 }

/-- C1 witness: the 4-vs-5 boundary and override-independence at a
concrete model override. -/
theorem provider_selection_by_sensitivity_witness :
    chatCompletionProvider cOpts4 = Provider.together
    ∧ chatCompletionProvider cOpts5 = Provider.anthropic
    ∧ chatCompletionProvider { cOpts4 with model := some "claude-sonnet-4-6" }
        = chatCompletionProvider cOpts4 :=
  ⟨provider_selection_by_sensitivity.1 cOpts4 4 rfl (by decide) (by decide),
   provider_selection_by_sensitivity.2.1 cOpts5 5 rfl (by decide) (by decide),
   provider_selection_by_sensitivity.2.2.1 cOpts4 (some "claude-sonnet-4-6")⟩

/-- C2 — For every request, environment and provider oracle (in
particular oracles whose every response requests tool use), the
reasoning loop of `runQuery` performs at most 5 model calls, and the
iteration bound constant is 5. -/
theorem model_call_bound :
    ∀ (env : OrchestratorEnv) (llm : List ChatMessage → ChatCompletionResponse)
      (req : QueryRequest),
      (runLoopOf env llm req).calls ≤ 5 ∧ MAX_ITERATIONS = 5 := by
  intro env llm req
  refine ⟨?_, rfl⟩
  simpa [runLoopOf] using
    reactLoop_calls_le llm (resolveAgent env req).config.tools MAX_ITERATIONS
      ((resolveAgent env req).historyMessages ++ [{ role := Role.user, content := req.message }]) []

/-- C5 — `classifyQuery` is a pure function of the input text agreeing
everywhere with the spec's scoring-and-tie-break rule (`specClassify`:
per-category filter-count of keyword substring matches of the
lower-cased input, then bidding on strict double excess, else talent
on strict excess over sales, else sales if positive, else sales); a
message containing only the bidding keywords "budget" and "rate"
classifies as bidding, and a message with zero keyword matches
classifies as sales. -/
theorem classify_query_matches_spec :
    (∀ msg : String, classifyQuery msg = specClassify msg)
    ∧ classifyQuery "budget rate" = "bidding"
    ∧ classifyQuery "hello" = "sales" := by
  refine ⟨fun msg => ?_, by decide, by decide⟩
  simp [classifyQuery, specClassify, scoreKeywords_eq_specScore]

/-! ## Concrete example values for witnesses and counterexamples -/

/-- A tool whose execution always throws. -/
def cToolBoom : Tool :=
  { name := "boom", description := "always fails", execute := fun _ _ => Except.error "E" }

/-- A tool whose execution succeeds with one text block. -/
def cToolEcho : Tool :=
  { name := "echo", description := "returns text",
    execute := fun _ _ => Except.ok [ContentBlock.text "out"] }

/-- A tool call naming a tool absent from every configuration used
below. -/
def cTcU : ToolCall := { id := "c1", name := "nope", arguments := "a" }

/-- A tool call naming the throwing tool. -/
def cTcE : ToolCall := { id := "c2", name := "boom", arguments := "a" }

/-- Empty built-in tool lists. -/
def cBuiltinsEmpty : BuiltinTools := { sales := [], talent := [], bidding := [] }

/-- An active stored sales-type agent definition. -/
def cUaSales : UserAgentConfig :=
  { id := "ua-1", agent_type := "sales", system_prompt := none, tools_enabled := [],
    model_preference := "", is_active := true }

/-- An inactive stored agent definition. -/
def cUaInactive : UserAgentConfig :=
  { id := "ua-2", agent_type := "sales", system_prompt := none, tools_enabled := [],
    model_preference := "", is_active := false }

/-- Environment whose agent lookup finds the active definition and
whose session load succeeds. -/
def cEnvFound : OrchestratorEnv :=
  { registry := [], builtins := cBuiltinsEmpty,
    getUserAgent := fun _ => Except.ok (some cUaSales),
    loadSession := fun _ _ _ => Except.ok ("sess-1", []) }

/-- Environment whose agent lookup throws. -/
def cEnvThrow : OrchestratorEnv :=
  { registry := [], builtins := cBuiltinsEmpty,
    getUserAgent := fun _ => Except.error (),
    loadSession := fun _ _ _ => Except.error () }

/-- Environment whose agent lookup returns null. -/
def cEnvMissing : OrchestratorEnv :=
  { registry := [], builtins := cBuiltinsEmpty,
    getUserAgent := fun _ => Except.ok none,
    loadSession := fun _ _ _ => Except.error () }

/-- Environment whose agent lookup finds an inactive definition. -/
def cEnvInactive : OrchestratorEnv :=
  { registry := [], builtins := cBuiltinsEmpty,
    getUserAgent := fun _ => Except.ok (some cUaInactive),
    loadSession := fun _ _ _ => Except.error () }

/-- Environment with one succeeding tool in the built-in sales config
and no stored agent. -/
def cEnvEcho : OrchestratorEnv :=
  { registry := [], builtins := { sales := [cToolEcho], talent := [], bidding := [] },
    getUserAgent := fun _ => Except.ok none,
    loadSession := fun _ _ _ => Except.error () }

/-- A request carrying both an agent id and an explicit agent type. -/
def cReqAgent : QueryRequest :=
  { message := "hi",
    user_context := { user_id := "u1", role := "ANALYST", data_sensitivity := 2 },
    conversation_id := "conv-1", agent_id := some "ua-1", agent_type := some "talent" }

/-- A request with an explicit agent type and no agent id. -/
def cReqTyped : QueryRequest :=
  { message := "hi",
    user_context := { user_id := "u1", role := "ANALYST", data_sensitivity := 2 },
    conversation_id := "conv-2", agent_id := none, agent_type := some "bidding" }

/-- A request with neither agent id nor agent type, and a message with
no classifier keyword matches. -/
def cReqPlain : QueryRequest :=
  { message := "hello",
    user_context := { user_id := "u1", role := "ANALYST", data_sensitivity := 2 },
    conversation_id := "conv-3" }

/-- Oracle whose first response is a normal stop with no tool calls. -/
def cLlmStop : List ChatMessage → ChatCompletionResponse := fun _ =>
  { text := "done", stopReason := StopReason.stop, toolCalls := [], model := "m" }

/-- Oracle whose every response requests one unknown tool and carries
empty text. -/
def cLlmToolEmpty : List ChatMessage → ChatCompletionResponse := fun _ =>
  { text := "", stopReason := StopReason.tool_calls, toolCalls := [cTcU], model := "m" }

/-- Oracle whose every response requests one unknown tool and carries
the text "partial". -/
def cLlmToolText : List ChatMessage → ChatCompletionResponse := fun _ =>
  { text := "partial", stopReason := StopReason.tool_calls, toolCalls := [cTcU], model := "m" }

/-- Oracle requesting the echo tool on the first call (one message in
the transcript) and stopping on the second. -/
def cLlmToolThenStop : List ChatMessage → ChatCompletionResponse := fun messages =>
  if messages.length ≤ 1 then
    { text := "", stopReason := StopReason.tool_calls,
      toolCalls := [{ id := "c1", name := "echo", arguments := "a" }], model := "m" }
  else
    { text := "final", stopReason := StopReason.stop, toolCalls := [], model := "m" }

/-- The assistant message built from a `cLlmToolText` response. -/
def cAssistantPartial : ChatMessage :=
  { role := Role.assistant, content := "partial",
    tool_calls := some [{ id := "c1", name := "nope", arguments := "a" }] }

/-- A user message with a numbered content. -/
def cMsgNum (i : Nat) : ChatMessage := { role := Role.user, content := toString i }

/-- 25 sequential numbered messages. -/
def cMsgs25 : List ChatMessage := (List.range 25).map cMsgNum

/-! ## More helper lemmas -/

/-- The batch loop appends exactly one tool-role message per call, in
call order, correlated by the call's id. -/
theorem execBatch_fst (tools : List Tool) (tcs : List ToolCall) :
    (execBatch tools tcs).1
      = tcs.map (fun tc => mkToolResultMsg tc (execToolCall tools tc).1) := by
  induction tcs with
  | nil => rfl
  | cons tc rest ih => simp [execBatch, ih]

/-- The batch loop appends to `toolsUsed` exactly the names of the
successfully executed calls, in call order. -/
theorem execBatch_snd (tools : List Tool) (tcs : List ToolCall) :
    (execBatch tools tcs).2
      = (tcs.filter (fun tc => (execToolCall tools tc).2)).map (fun tc => tc.name) := by
  induction tcs with
  | nil => rfl
  | cons tc rest ih =>
    cases h : (execToolCall tools tc).2 <;>
      simp [execBatch, List.filter_cons, h, ih]

/-- C3 — Each tool call in a batch produces exactly one tool-role
message correlated by its call id, in the order received; a call whose
name is absent from the configuration yields the structured
unknown-tool error payload, a call whose execution throws yields the
structured execution-error payload, each call's result is a function
of that call alone (so siblings are unaffected), and when the response
is not a normal stop the loop proceeds to the next model call with the
batch results appended. -/
theorem batch_tool_result_messages
    (tools : List Tool) (tcs : List ToolCall) (tcU tcE : ToolCall) (t : Tool) (e : String)
    (hU : tools.find? (fun x => x.name == tcU.name) = none)
    (hE : tools.find? (fun x => x.name == tcE.name) = some t)
    (hEx : t.execute tcE.id tcE.arguments = Except.error e)
    (llm : List ChatMessage → ChatCompletionResponse) (fuel : Nat)
    (messages : List ChatMessage) (toolsUsed : List String)
    (hGo : ((llm messages).stopReason == StopReason.stop
            || (llm messages).toolCalls.isEmpty) = false) :
    (execBatch tools tcs).1
      = tcs.map (fun tc => mkToolResultMsg tc (execToolCall tools tc).1)
    ∧ (execToolCall tools tcU).1 = jsonErrorString ("Unknown tool: " ++ tcU.name)
    ∧ (execToolCall tools tcU).2 = false
    ∧ (execToolCall tools tcE).1 = jsonErrorString ("Tool execution failed: " ++ e)
    ∧ (execToolCall tools tcE).2 = false
    ∧ reactLoop llm tools (fuel + 1) messages toolsUsed
        = (let response := llm messages
           let batch := execBatch tools response.toolCalls
           let r := reactLoop llm tools fuel
             ((messages ++ [mkAssistantMsg response]) ++ batch.1)
             (toolsUsed ++ batch.2)
           { r with calls := r.calls + 1 }) := by
  refine ⟨execBatch_fst tools tcs, ?_, ?_, ?_, ?_, ?_⟩
  · simp [execToolCall, hU]
  · simp [execToolCall, hU]
  · simp [execToolCall, hE, hEx]
  · simp [execToolCall, hE, hEx]
  · have hn : ¬(((llm messages).stopReason == StopReason.stop
        || (llm messages).toolCalls.isEmpty) = true) := by simp [hGo]
    simp only [reactLoop]
    rw [if_neg hn]

/-- C3 witness: in a configuration holding only the throwing tool, a
two-call batch (one unknown name, one throwing execution) yields two
correlated tool messages with the two structured error payloads, and
the non-stop response condition holds so the loop continues. -/
theorem batch_tool_result_messages_witness :
    ([cToolBoom].find? (fun x => x.name == cTcU.name) = none)
    ∧ (cToolBoom.execute cTcE.id cTcE.arguments = Except.error "E")
    ∧ (((cLlmToolEmpty []).stopReason == StopReason.stop
        || (cLlmToolEmpty []).toolCalls.isEmpty) = false)
    ∧ (execBatch [cToolBoom] [cTcU, cTcE]).1
        = [cTcU, cTcE].map (fun tc => mkToolResultMsg tc (execToolCall [cToolBoom] tc).1)
    ∧ (execToolCall [cToolBoom] cTcU).1 = jsonErrorString "Unknown tool: nope"
    ∧ (execToolCall [cToolBoom] cTcE).1 = jsonErrorString "Tool execution failed: E" := by
  have h := batch_tool_result_messages [cToolBoom] [cTcU, cTcE] cTcU cTcE cToolBoom "E"
    rfl rfl rfl cLlmToolEmpty 0 [] [] rfl
  exact ⟨rfl, rfl, rfl, h.1, h.2.1, h.2.2.2.1⟩

/-- C10 — A tool name enters the invoked-tools list exactly for the
calls that resolved to a configured tool and whose execution did not
throw, one entry per successful invocation in call order (so the same
name may repeat); unknown-tool calls and throwing executions
contribute nothing. -/
theorem tools_used_successful_only (tools : List Tool) (tcs : List ToolCall) :
    (execBatch tools tcs).2
      = (tcs.filter (fun tc => (execToolCall tools tc).2)).map (fun tc => tc.name)
    ∧ (∀ tc : ToolCall, (execToolCall tools tc).2 = execSuccess tools tc)
    ∧ (execBatch [cToolEcho]
        [{ id := "c1", name := "echo", arguments := "a" },
         { id := "c2", name := "echo", arguments := "b" }]).2
      = ["echo", "echo"] := by
  refine ⟨execBatch_snd tools tcs, ?_, rfl⟩
  intro tc
  unfold execToolCall execSuccess
  cases hfind : tools.find? (fun t => t.name == tc.name) with
  | none => rfl
  | some tl =>
    cases hex : tl.execute tc.id tc.arguments with
    | ok r => simp [hex]
    | error e => simp [hex]

/-- C4 — The stored session window is the concatenation of prior and
new messages truncated to its most recent 20 entries (oldest first),
each surviving entry in original relative order and stamped with a
capture time (existing stamps kept, missing ones set to the current
time); saving a total of 25 messages keeps exactly the last 20. -/
theorem session_window_save (now : String) (existingMessages newMessages : List ChatMessage) :
    saveSessionMessages now existingMessages newMessages
      = (((existingMessages ++ newMessages).drop
          ((existingMessages ++ newMessages).length - MAX_HISTORY_MESSAGES)).map (stampMsg now))
    ∧ (saveSessionMessages now existingMessages newMessages).length
        = min (existingMessages ++ newMessages).length MAX_HISTORY_MESSAGES
    ∧ (∀ m : ChatMessage, m ∈ saveSessionMessages now existingMessages newMessages →
        m.timestamp.isSome = true)
    ∧ ((existingMessages ++ newMessages).length = 25 →
        saveSessionMessages now existingMessages newMessages
          = ((existingMessages ++ newMessages).drop 5).map (stampMsg now)) := by
  have key : saveSessionMessages now existingMessages newMessages
      = (((existingMessages ++ newMessages).drop
          ((existingMessages ++ newMessages).length - MAX_HISTORY_MESSAGES)).map (stampMsg now)) := by
    simp only [saveSessionMessages]
    by_cases h : (existingMessages ++ newMessages).length > MAX_HISTORY_MESSAGES
    · rw [if_pos h]
    · have h0 : (existingMessages ++ newMessages).length - MAX_HISTORY_MESSAGES = 0 :=
        Nat.sub_eq_zero_of_le (Nat.le_of_not_lt h)
      rw [if_neg h, h0, List.drop_zero]
  refine ⟨key, ?_, ?_, ?_⟩
  · rw [key]
    simp only [List.length_map, List.length_drop, MAX_HISTORY_MESSAGES]
    omega
  · intro m hm
    rw [key] at hm
    obtain ⟨x, _, rfl⟩ := List.mem_map.mp hm
    simp [stampMsg]
  · intro h25
    rw [key, h25]
    norm_num [MAX_HISTORY_MESSAGES]

/-- C4 witness: saving 25 fresh messages into an empty history keeps
exactly the last 20, and a surviving entry carries a capture time. -/
theorem session_window_save_witness :
    (([] : List ChatMessage) ++ cMsgs25).length = 25
    ∧ saveSessionMessages "T" [] cMsgs25
        = ((([] : List ChatMessage) ++ cMsgs25).drop 5).map (stampMsg "T")
    ∧ stampMsg "T" (cMsgNum 5) ∈ saveSessionMessages "T" [] cMsgs25
    ∧ (stampMsg "T" (cMsgNum 5)).timestamp.isSome = true := by
  have h := session_window_save "T" [] cMsgs25
  have hmem : stampMsg "T" (cMsgNum 5) ∈ saveSessionMessages "T" [] cMsgs25 := by decide
  exact ⟨by decide, h.2.2.2 (by decide), hmem, h.2.2.1 _ hmem⟩

/-- C6 — Agent resolution precedence: a found-and-active stored
definition takes the user-agent path (strategy `"user_agent"`)
regardless of any `agent_type` also supplied; a throwing lookup, a
missing definition, or an inactive one falls back to
explicit-type-or-classification with strategy `"fallback_classified"`;
without an agent id, an explicit type yields `"direct"` and
classification yields `"auto_classified"`. -/
theorem agent_resolution_precedence :
    (∀ (env : OrchestratorEnv) (req : QueryRequest) (aid : String) (ua : UserAgentConfig),
      req.agent_id = some aid → env.getUserAgent aid = Except.ok (some ua) →
      ua.is_active = true →
      (resolveAgent env req).routingStrategy = "user_agent"
      ∧ (resolveAgent env req).agentType = ua.agent_type
      ∧ (resolveAgent env req).primaryAgent = "user_agent:" ++ ua.id)
    ∧ (∀ (env : OrchestratorEnv) (req : QueryRequest) (aid : String),
      req.agent_id = some aid → env.getUserAgent aid = Except.error () →
      (resolveAgent env req).routingStrategy = "fallback_classified"
      ∧ (resolveAgent env req).agentType = req.agent_type.getD (classifyQuery req.message))
    ∧ (∀ (env : OrchestratorEnv) (req : QueryRequest) (aid : String),
      req.agent_id = some aid → env.getUserAgent aid = Except.ok none →
      (resolveAgent env req).routingStrategy = "fallback_classified"
      ∧ (resolveAgent env req).agentType = req.agent_type.getD (classifyQuery req.message))
    ∧ (∀ (env : OrchestratorEnv) (req : QueryRequest) (aid : String) (ua : UserAgentConfig),
      req.agent_id = some aid → env.getUserAgent aid = Except.ok (some ua) →
      ua.is_active = false →
      (resolveAgent env req).routingStrategy = "fallback_classified"
      ∧ (resolveAgent env req).agentType = req.agent_type.getD (classifyQuery req.message))
    ∧ (∀ (env : OrchestratorEnv) (req : QueryRequest) (t : String),
      req.agent_id = none → req.agent_type = some t →
      (resolveAgent env req).routingStrategy = "direct"
      ∧ (resolveAgent env req).agentType = t)
    ∧ (∀ (env : OrchestratorEnv) (req : QueryRequest),
      req.agent_id = none → req.agent_type = none →
      (resolveAgent env req).routingStrategy = "auto_classified"
      ∧ (resolveAgent env req).agentType = classifyQuery req.message) := by
  refine ⟨?_, ?_, ?_, ?_, ?_, ?_⟩
  · intro env req aid ua h1 h2 h3
    simp only [resolveAgent, h1, h2, h3, if_true]
    cases env.loadSession req.user_context.user_id ua.id req.conversation_id with
    | ok s => exact ⟨rfl, rfl, rfl⟩
    | error e => exact ⟨rfl, rfl, rfl⟩
  · intro env req aid h1 h2
    simp [resolveAgent, fallbackResolution, h1, h2]
  · intro env req aid h1 h2
    simp [resolveAgent, fallbackResolution, h1, h2]
  · intro env req aid ua h1 h2 h3
    simp [resolveAgent, fallbackResolution, h1, h2, h3]
  · intro env req t h1 h2
    simp [resolveAgent, h1, h2]
  · intro env req h1 h2
    simp [resolveAgent, h1, h2]

/-- C6 witness: all six precedence cases at concrete environments and
requests; in particular a request supplying both an agent id and
`agent_type = "talent"` takes the user-agent path when the definition
is found and active, and falls back to the explicit type when the
lookup throws. -/
theorem agent_resolution_precedence_witness :
    ((resolveAgent cEnvFound cReqAgent).routingStrategy = "user_agent"
      ∧ (resolveAgent cEnvFound cReqAgent).agentType = "sales")
    ∧ ((resolveAgent cEnvThrow cReqAgent).routingStrategy = "fallback_classified"
      ∧ (resolveAgent cEnvThrow cReqAgent).agentType = "talent")
    ∧ (resolveAgent cEnvMissing cReqAgent).routingStrategy = "fallback_classified"
    ∧ (resolveAgent cEnvInactive cReqAgent).routingStrategy = "fallback_classified"
    ∧ ((resolveAgent cEnvThrow cReqTyped).routingStrategy = "direct"
      ∧ (resolveAgent cEnvThrow cReqTyped).agentType = "bidding")
    ∧ ((resolveAgent cEnvThrow cReqPlain).routingStrategy = "auto_classified"
      ∧ (resolveAgent cEnvThrow cReqPlain).agentType = "sales") := by
  have h := agent_resolution_precedence
  have h1 := h.1 cEnvFound cReqAgent "ua-1" cUaSales rfl rfl rfl
  have h2 := h.2.1 cEnvThrow cReqAgent "ua-1" rfl rfl
  have h3 := h.2.2.1 cEnvMissing cReqAgent "ua-1" rfl rfl
  have h4 := h.2.2.2.1 cEnvInactive cReqAgent "ua-1" cUaInactive rfl rfl rfl
  have h5 := h.2.2.2.2.1 cEnvThrow cReqTyped "bidding" rfl rfl
  have h6 := h.2.2.2.2.2 cEnvThrow cReqPlain rfl rfl
  exact ⟨⟨h1.1, h1.2.1⟩, ⟨h2.1, h2.2⟩, h3.1, h4.1, ⟨h5.1, h5.2⟩, ⟨h6.1, h6.2⟩⟩

/-- C7 counterexample — a session-backed (user-agent) request whose
first model response is a normal stop with no tool calls: the routing
strategy is `"user_agent"` and a session is attached, yet
`agents_used` is omitted (`none`), contradicting "always present for
session-backed paths". -/
theorem agents_used_session_counterexample :
    (resolveAgent cEnvFound cReqAgent).routingStrategy = "user_agent"
    ∧ (resolveAgent cEnvFound cReqAgent).sessionId = some "sess-1"
    ∧ (runQuery cEnvFound cLlmStop "T0" cReqAgent).agent_info.routing_strategy = "user_agent"
    ∧ (runQuery cEnvFound cLlmStop "T0" cReqAgent).agent_info.agents_used = none :=
  ⟨rfl, rfl, rfl, rfl⟩

/-- C7 (amended) — `agents_used` is omitted exactly when the loop
terminated with a normal-stop/no-tool-calls response and the
invoked-tools list is empty; on such termination with a non-empty list
it is present, and when the iteration bound is exhausted it is always
present (possibly empty), on every routing path. -/
theorem agents_used_presence (env : OrchestratorEnv)
    (llm : List ChatMessage → ChatCompletionResponse) (now : String) (req : QueryRequest) :
    ((runLoopOf env llm req).finished = true → (runLoopOf env llm req).toolsUsed = [] →
      (runQuery env llm now req).agent_info.agents_used = none)
    ∧ ((runLoopOf env llm req).finished = true → (runLoopOf env llm req).toolsUsed ≠ [] →
      (runQuery env llm now req).agent_info.agents_used = some (runLoopOf env llm req).toolsUsed)
    ∧ ((runLoopOf env llm req).finished = false →
      (runQuery env llm now req).agent_info.agents_used = some (runLoopOf env llm req).toolsUsed) := by
  refine ⟨?_, ?_, ?_⟩
  · intro hf ht
    simp [runQuery, hf, ht]
  · intro hf ht
    have hlen : 0 < (runLoopOf env llm req).toolsUsed.length :=
      List.length_pos.mpr ht
    simp [runQuery, hf, hlen]
  · intro hf
    simp [runQuery, hf]

/-- C7 amended witness: a user-agent request stopping with no tool
calls omits `agents_used`; a classified request that invoked the echo
tool and then stopped reports `some ["echo"]`; an exhausted request
that invoked nothing still reports `some []`. -/
theorem agents_used_presence_witness :
    (runLoopOf cEnvFound cLlmStop cReqAgent).finished = true
    ∧ (runLoopOf cEnvFound cLlmStop cReqAgent).toolsUsed = []
    ∧ (runQuery cEnvFound cLlmStop "T0" cReqAgent).agent_info.agents_used = none
    ∧ (runLoopOf cEnvEcho cLlmToolThenStop cReqPlain).finished = true
    ∧ (runLoopOf cEnvEcho cLlmToolThenStop cReqPlain).toolsUsed = ["echo"]
    ∧ (runQuery cEnvEcho cLlmToolThenStop "T0" cReqPlain).agent_info.agents_used = some ["echo"]
    ∧ (runLoopOf cEnvEcho cLlmToolEmpty cReqPlain).finished = false
    ∧ (runQuery cEnvEcho cLlmToolEmpty "T0" cReqPlain).agent_info.agents_used = some [] := by
  refine ⟨rfl, rfl,
    (agents_used_presence cEnvFound cLlmStop "T0" cReqAgent).1 rfl rfl,
    rfl, rfl, ?_, rfl,
    (agents_used_presence cEnvEcho cLlmToolEmpty "T0" cReqPlain).2.2 rfl⟩
  exact (agents_used_presence cEnvEcho cLlmToolThenStop "T0" cReqPlain).2.1 rfl (by decide)

/-- C8 counterexample — an exhausted run all of whose model responses
carried empty text: the last assistant message exists (its text is the
empty string), yet the returned content is the fixed placeholder, not
that message's text, contradicting "the text of the last assistant
message if any such message exists". -/
theorem exhausted_content_counterexample :
    (runLoopOf cEnvEcho cLlmToolEmpty cReqPlain).finished = false
    ∧ (lastAssistantMsg (runLoopOf cEnvEcho cLlmToolEmpty cReqPlain).messages).map
        (fun m => m.content) = some ""
    ∧ (runQuery cEnvEcho cLlmToolEmpty "T0" cReqPlain).content = maxIterationsMessage
    ∧ maxIterationsMessage ≠ "" :=
  ⟨rfl, rfl, rfl, by decide⟩

/-- C8 (amended) — When the iteration bound is reached without a
normal-stop/no-tool-calls response, the result is a non-error
`QueryResponse` whose content is the text of the last assistant
message if such a message exists and its text is non-empty; if no
assistant message exists, or the last one's text is empty, the content
is the fixed "max iterations reached" placeholder. -/
theorem exhausted_content_fallback (env : OrchestratorEnv)
    (llm : List ChatMessage → ChatCompletionResponse) (now : String) (req : QueryRequest) :
    ((runLoopOf env llm req).finished = false →
      ∀ m : ChatMessage, lastAssistantMsg (runLoopOf env llm req).messages = some m →
        m.content ≠ "" → (runQuery env llm now req).content = m.content)
    ∧ ((runLoopOf env llm req).finished = false →
        lastAssistantMsg (runLoopOf env llm req).messages = none →
        (runQuery env llm now req).content = maxIterationsMessage)
    ∧ ((runLoopOf env llm req).finished = false →
      ∀ m : ChatMessage, lastAssistantMsg (runLoopOf env llm req).messages = some m →
        m.content = "" → (runQuery env llm now req).content = maxIterationsMessage) := by
  refine ⟨?_, ?_, ?_⟩
  · intro hf m hm hne
    simp [runQuery, hf, hm, jsOrOpt, jsOr, hne]
  · intro hf hm
    simp [runQuery, hf, hm, jsOrOpt]
  · intro hf m hm he
    simp [runQuery, hf, hm, jsOrOpt, jsOr, he]

/-- C8 amended witness: an exhausted run whose responses carried the
text "partial" returns "partial", the text of the (existing,
non-empty) last assistant message. -/
theorem exhausted_content_fallback_witness :
    (runLoopOf cEnvEcho cLlmToolText cReqPlain).finished = false
    ∧ lastAssistantMsg (runLoopOf cEnvEcho cLlmToolText cReqPlain).messages
        = some cAssistantPartial
    ∧ cAssistantPartial.content ≠ ""
    ∧ (runQuery cEnvEcho cLlmToolText "T0" cReqPlain).content = "partial" := by
  refine ⟨rfl, rfl, by decide, ?_⟩
  exact (exhausted_content_fallback cEnvEcho cLlmToolText "T0" cReqPlain).1
    rfl cAssistantPartial rfl (by decide)

/-- C9 counterexample — a stored definition whose model preference is
`"together/together/llama"`: only one provider prefix is stripped, so
the resulting `defaultModel` is `some "together/llama"`, which still
begins with a provider-namespace prefix, contradicting "never begins
with a provider-namespace prefix". -/
theorem model_namespace_counterexample :
    (buildAgentConfigFromUser [] cBuiltinsEmpty
      { id := "ua-4", agent_type := "sales", system_prompt := none, tools_enabled := [],
        model_preference := "together/together/llama", is_active := true }).defaultModel
      = some "together/llama"
    ∧ hasProviderNamespace "together/llama" = true :=
  ⟨rfl, rfl⟩

/-- C9 (amended) — Building an agent configuration from a stored
definition strips exactly one leading provider-namespace prefix
(`together/` or `anthropic/`) from the model-preference string before
the remainder is used as the literal model identifier (an empty
remainder yields no `defaultModel`); whenever the once-stripped
preference does not itself begin with a provider-namespace prefix,
the resulting `defaultModel` does not begin with one. -/
theorem model_namespace_strip (registry : List Tool) (bt : BuiltinTools)
    (uc : UserAgentConfig) :
    (buildAgentConfigFromUser registry bt uc).defaultModel = stripModelPfx uc.model_preference
    ∧ (∀ m : String, stripModelPfx uc.model_preference = some m →
        hasProviderNamespace (stripProviderOnce uc.model_preference) = false →
        hasProviderNamespace m = false) := by
  constructor
  · unfold buildAgentConfigFromUser
    split <;> rfl
  · intro m hm hp
    unfold stripModelPfx at hm
    by_cases h : (stripProviderOnce uc.model_preference == "") = true
    · simp [h] at hm
    · simp [h] at hm
      rw [← hm]
      exact hp

/-- C9 amended witness: a single-prefix preference
`"together/llama-3"` yields `defaultModel = some "llama-3"`, which
carries no provider-namespace prefix. -/
theorem model_namespace_strip_witness :
    (buildAgentConfigFromUser [] cBuiltinsEmpty
      { id := "ua-3", agent_type := "sales", system_prompt := none, tools_enabled := [],
        model_preference := "together/llama-3", is_active := true }).defaultModel
      = some "llama-3"
    ∧ hasProviderNamespace "llama-3" = false := by
  have h := model_namespace_strip [] cBuiltinsEmpty
    { id := "ua-3", agent_type := "sales", system_prompt := none, tools_enabled := [],
      model_preference := "together/llama-3", is_active := true }
  exact ⟨by rw [h.1]; rfl, h.2 "llama-3" rfl rfl⟩

end OneVice
